import Mathlib

/-!
# Verification of the web research agent orchestration core

Shallow embedding of `src/web_research_agent/agent.py`,
`src/web_research_agent/utils.py` and the request model of `src/app/main.py`.

External collaborators (the Anthropic client, `json.loads`, the two tool
executors `google_search` / `get_url_content`) are modelled as explicit
environment parameters, so every theorem quantifies over all of their
behaviours.  Python exceptions are modelled with `Except String`; an
`Except.error` value corresponds to a raised exception escaping the function.
Result items carried inside the model's JSON replies are opaque structured
objects; they are represented by an opaque carrier type `Item := Nat`, since
the orchestrator never inspects them (it only slices and concatenates lists
of them).  JSON objects returned by `json.loads` are modelled at the types
the code actually reads from them: the keys `results` (a list of items),
`comments` (a string) and `next_action` (a string), each possibly absent.
-/

/-- Opaque carrier for the structured result items the model returns;
`process_task` never inspects an item, it only counts and concatenates. -/
abbrev Item := Nat

/-- The structured argument object of a tool-use block; `utils.py` reads the
keys `query` and `url` via `tool_input.get(...)`, so each may be absent. -/
structure ToolInput where
  query : Option String := none
  url : Option String := none
  deriving DecidableEq

/-- One content block of a model response: either a text block or a tool-use
request carrying a correlation id, a tool name and a structured input
(`utils.py`, attributes `type`, `text`, `id`, `name`, `input`). -/
inductive Block where
  | text (s : String)
  | toolUse (bid : String) (name : String) (input : ToolInput)
  deriving DecidableEq

/-- A model response: `stop_reason` plus an ordered list of content blocks
(the shape `process_anthropic_response` reads via `getattr`). -/
structure Resp where
  stop_reason : String
  content : List Block
  deriving DecidableEq

/-- A tool result dict built by the dispatch loop in
`process_anthropic_response` (`\x7b"type": "tool_result", "tool_use_id": ...,
"content": ...\x7d`); the constant `type` key is implicit in the constructor. -/
structure ToolResult where
  tool_use_id : String
  content : String
  deriving DecidableEq

/-- The content of one conversation message: the initial user prompt is plain
text, the appended assistant turn carries the response blocks, and the
appended user turn carries the tool results. -/
inductive MsgContent where
  | text (s : String)
  | blocks (bs : List Block)
  | toolResults (ts : List ToolResult)
  deriving DecidableEq

/-- One message of the conversation (`\x7b"role": ..., "content": ...\x7d`). -/
structure Msg where
  role : String
  content : MsgContent
  deriving DecidableEq

/-- Result of one call of `process_anthropic_response`: the returned response
(or the uncaught Python exception), together with a ghost counter of how many
times the language-model service was actually contacted. -/
structure DriverOut where
  res : Except String Resp
  calls : Nat

/-- The projection of a JSON object that `process_task` reads from a parsed
model reply: the keys `results`, `comments`, `next_action`, each optional
(`result.get(...)` / `"results" in result`). -/
structure ActionResult where
  results : Option (List Item) := none
  comments : Option String := none
  next_action : Option String := none
  deriving DecidableEq

/-- A Python value produced by `json.loads`: a JSON object (projected to the
fields the code reads), a JSON array of strings (the shape
`infer_fields_from_task` validates), or anything else. -/
inductive PyVal where
  | dict (r : ActionResult)
  | strList (xs : List String)
  | other
  deriving DecidableEq

/-- Why the `while True` loop of `process_task` stopped (ghost observation of
which `break` / raise fired). -/
inductive StopReason where
  | searchBudget
  | resultsBudget
  | modelDone
  | pyError
  deriving DecidableEq

/-- Full observable state of one `process_task` run: the accumulated results,
the action history, the final `search_count`, a ghost count of issued
Conversation Driver exchanges, the last bound value of `result` (absent iff
the loop body never ran), the stop reason and a pending Python exception. -/
structure LoopTrace where
  allResults : List Item
  actionHistory : List String
  searchCount : Nat
  exchanges : Nat
  lastResult : Option ActionResult
  stopReason : StopReason
  pyErr : Option String
  deriving DecidableEq

/-- The value `process_task` returns. -/
structure TaskOutput where
  results : List Item
  comments : String
  deriving DecidableEq

/-- The request model of the surrounding router (`src/app/main.py`,
`QueryBody`): plain ints with no bound validation (defaults 2 and 5). -/
structure QueryBody where
  query : String
  max_searches : Int
  max_results : Int

/-- The error raised by `get_anthropic_client` when the API key is missing. -/
def keyMissingMsg : String := "ANTHROPIC_API_KEY is not set in the environment."

/-- `json.dumps` on a list of strings (content of a `search_web` result). -/
def jsonDumpList (xs : List String) : String :=
  "[" ++ String.intercalate ", " (xs.map (fun s => "\"" ++ s ++ "\"")) ++ "]"

/-- The JSON payload fabricated by `process_anthropic_response` when the
service call raises: `json.dumps(\x7b"results": [], "comments": "Error: ...",
"next_action": ""\x7d)`. -/
def fallbackJson (e : String) : String :=
  "\x7b\"results\": [], \"comments\": \"Error: " ++ e ++ "\", \"next_action\": \"\"\x7d"

/-- The synthetic response returned when the call-depth budget is exhausted
(`utils.py` lines 59-65). -/
def maxCallsResp : Resp :=
  { stop_reason := "end_turn", content := [Block.text "Max API calls reached."] }

/-- The synthetic response returned when the service call raises
(`utils.py` lines 120-128). -/
def errorFallbackResp (e : String) : Resp :=
  { stop_reason := "end_turn", content := [Block.text (fallbackJson e)] }

/-- `page or "Failed to fetch page"`: Python truthiness makes both `None` and
the empty string fall back to the failure marker. -/
def pageContent : Option String → String
  | none => "Failed to fetch page"
  | some t => if t = "" then "Failed to fetch page" else t

/-- The tool dispatch loop of `process_anthropic_response` (lines 80-107):
walks the content blocks, executes known tools, converts executor exceptions
into error-bearing tool results, and silently skips unknown tool names.
`se` models `google_search`, `fe` models `get_url_content`; an `Except.error`
from either models the executor raising. -/
def toolOutputs (se : String → Except String (List String))
    (fe : String → Except String (Option String)) : List Block → List ToolResult
  | [] => []
  | Block.text _ :: rest => toolOutputs se fe rest
  | Block.toolUse bid name input :: rest =>
    (if name = "search_web" then
      match se (input.query.getD "") with
      | Except.ok results => [{ tool_use_id := bid, content := jsonDumpList results }]
      | Except.error e => [{ tool_use_id := bid, content := "Tool error: " ++ e }]
    else if name = "fetch_page" then
      match fe (input.url.getD "") with
      | Except.ok page => [{ tool_use_id := bid, content := pageContent page }]
      | Except.error e => [{ tool_use_id := bid, content := "Tool error: " ++ e }]
    else []) ++ toolOutputs se fe rest

/-- Recursive core of `process_anthropic_response` (fuel = `max_calls` once
clamped at zero).  `kp` is whether `ANTHROPIC_API_KEY` is set (client
construction succeeds); `svc` is `client.messages.create`, a function of the
message list, raising via `Except.error`.  The depth check precedes client
construction, so a missing key still returns the synthetic terminal response
at depth 0.  An exception from the recursive call is caught by the enclosing
`try` and converted into the error fallback, exactly as in the source. -/
def paGo (kp : Bool) (svc : List Msg → Except String Resp)
    (se : String → Except String (List String))
    (fe : String → Except String (Option String)) : Nat → List Msg → DriverOut
  | 0, _ => { res := Except.ok maxCallsResp, calls := 0 }
  | fuel+1, messages =>
    if kp = false then { res := Except.error keyMissingMsg, calls := 0 }
    else
      match svc messages with
      | Except.error e => { res := Except.ok (errorFallbackResp e), calls := 1 }
      | Except.ok resp =>
        if resp.stop_reason = "tool_use" then
          let outs := toolOutputs se fe resp.content
          if outs = [] then { res := Except.ok resp, calls := 1 }
          else
            let child := paGo kp svc se fe fuel
              (messages ++ [{ role := "assistant", content := MsgContent.blocks resp.content },
                            { role := "user", content := MsgContent.toolResults outs }])
            match child.res with
            | Except.error e2 => { res := Except.ok (errorFallbackResp e2), calls := child.calls + 1 }
            | Except.ok r2 => { res := Except.ok r2, calls := child.calls + 1 }
        else { res := Except.ok resp, calls := 1 }

/-- `process_anthropic_response(messages, tools, max_calls=5, ...)`.  The
`tools` catalog is only forwarded to the external service, so it is absorbed
into `svc`; `max_calls` is a Python int, clamped at zero by the
`max_calls <= 0` guard. -/
def process_anthropic_response (kp : Bool) (svc : List Msg → Except String Resp)
    (se : String → Except String (List String))
    (fe : String → Except String (Option String))
    (messages : List Msg) (max_calls : Int) : DriverOut :=
  paGo kp svc se fe max_calls.toNat messages

/-- First `text` content block of a block list (the pattern
`for block ...: if block.type == "text"` in `ask_claude` and
`process_single_action`). -/
def firstText : List Block → Option String
  | [] => none
  | Block.text s :: _ => some s
  | Block.toolUse _ _ _ :: rest => firstText rest

/-- The schema-inference prompt built by `infer_fields_from_task`. -/
def inferPrompt (task : String) : String :=
  "Given this task: \"" ++ task ++ "\"\n    What fields should I extract? Return only a JSON array of field names in snake_case format.\n    For example: [\"company_name\", \"revenue\", \"employee_count\"]\n    Keep the fields simple and focused on the core information requested.\n    "

/-- `ask_claude`: constructs the client outside its `try` (raising if the key
is missing), then returns the first text block of the reply, or `none` when
the create call raises or no text block exists.  `create` models
`client.messages.create` for this single-prompt call. -/
def ask_claude (kp : Bool) (create : String → Except String (List Block))
    (prompt : String) : Except String (Option String) :=
  if kp = false then Except.error keyMissingMsg
  else
    match create prompt with
    | Except.error _ => Except.ok none
    | Except.ok blocks => Except.ok (firstText blocks)

/-- `infer_fields_from_task` (`agent.py` lines 8-32): asks for a JSON array of
field names; any exception (missing key, empty/missing reply, parse failure,
value not a list of strings) is caught and degrades to the fixed fallback
`["name", "description"]`.  `jl` models `json.loads`, raising via
`Except.error`. -/
def infer_fields_from_task (kp : Bool) (create : String → Except String (List Block))
    (jl : String → Except String PyVal) (task : String) : List String :=
  match ask_claude kp create (inferPrompt task) with
  | Except.error _ => ["name", "description"]
  | Except.ok none => ["name", "description"]
  | Except.ok (some t) =>
    if t = "" then ["name", "description"]
    else
      match jl t with
      | Except.error _ => ["name", "description"]
      | Except.ok (PyVal.strList xs) => xs
      | Except.ok _ => ["name", "description"]

/-- `process_single_action` (`agent.py` lines 34-57): one Conversation Driver
exchange (depth budget 5).  The driver call sits outside the `try`, so a
driver exception propagates; inside the `try`, the first text block is parsed
with `json.loads`, parse failures and missing text blocks yield `\x7b\x7d`
(an `ActionResult` with every key absent). -/
def process_single_action (kp : Bool) (svc : List Msg → Except String Resp)
    (se : String → Except String (List String))
    (fe : String → Except String (Option String))
    (jl : String → Except String PyVal) (message : String) : Except String PyVal :=
  match (process_anthropic_response kp svc se fe
      [{ role := "user", content := MsgContent.text message }] 5).res with
  | Except.error e => Except.error e
  | Except.ok resp =>
    match firstText resp.content with
    | none => Except.ok (PyVal.dict {})
    | some t =>
      match jl t with
      | Except.error _ => Except.ok (PyVal.dict {})
      | Except.ok v => Except.ok v

/-- `"\n".join(f"- \x7baction\x7d" for action in action_history)`. -/
def historyText (hist : List String) : String :=
  String.intercalate "\n" (hist.map (fun a => "- " ++ a))

/-- `TASK_TEMPLATE.format(NEXT_TASK=..., ACTION_HISTORY=...)` from
`agent.py` lines 107-127, with the f-string parts already substituted. -/
def renderTemplate (task : String) (fields : List String) (maxResults : Int)
    (nextTask : String) (actionHistory : String) : String :=
  "Your initial task is:\n\n" ++ task ++ "\n\n" ++ nextTask ++
  "\n\nPrevious actions taken:\n" ++ actionHistory ++
  "\n\nRequired fields for each result: " ++ String.intercalate ", " fields ++
  "\nMaximum results to collect: " ++ toString maxResults ++
  "\n\nIf your task is to find information online, you can use search_web to search Google and fetch_page to get webpage content." ++
  "\n\nReturn a JSON with:\n- results: list of items matching the required fields (limit to " ++
  toString maxResults ++
  " total results)\n- comments: any additional information about the results\n- next_action: what should be searched or analyzed next (empty string if done)" ++
  "\n\nMAKE SURE THAT YOU OUTPUT A VALID JSON OBJECT. DO NOT INCLUDE ANY OTHER TEXT.\nIf you cannot find information, return empty lists/strings as appropriate."

/-- The `while True` loop of `process_task` (lines 139-171).  `act k msg` is
the outcome of the k-th `process_single_action` call on message `msg` (an
`Except.error` models an exception escaping the call); a non-dict parsed
reply makes the loop body raise at `"results" in result` / `result.get`
(`TypeError` / `AttributeError`).  Fuel equals the number of iterations the
`search_count >= max_searches` guard still allows, so fuel 0 is exactly that
`break`. -/
def loopGo (act : Nat → String → Except String PyVal) (task : String)
    (fields : List String) (maxResults : Int) :
    Nat → Nat → Nat → List Item → List String → String → Option ActionResult → LoopTrace
  | 0, k, ex, acc, hist, _msg, last =>
    { allResults := acc, actionHistory := hist, searchCount := k, exchanges := ex,
      lastResult := last, stopReason := StopReason.searchBudget, pyErr := none }
  | fuel+1, k, ex, acc, hist, msg, last =>
    match act k msg with
    | Except.error e =>
      { allResults := acc, actionHistory := hist, searchCount := k, exchanges := ex + 1,
        lastResult := last, stopReason := StopReason.pyError, pyErr := some e }
    | Except.ok (PyVal.strList _) =>
      { allResults := acc, actionHistory := hist, searchCount := k + 1, exchanges := ex + 1,
        lastResult := last, stopReason := StopReason.pyError, pyErr := some "AttributeError" }
    | Except.ok PyVal.other =>
      { allResults := acc, actionHistory := hist, searchCount := k + 1, exchanges := ex + 1,
        lastResult := last, stopReason := StopReason.pyError, pyErr := some "TypeError" }
    | Except.ok (PyVal.dict r) =>
      match r.results with
      | some new =>
        if maxResults - (acc.length : Int) ≤ 0 then
          { allResults := acc, actionHistory := hist, searchCount := k + 1, exchanges := ex + 1,
            lastResult := some r, stopReason := StopReason.resultsBudget, pyErr := none }
        else
          let acc2 := acc ++ new.take (maxResults - (acc.length : Int)).toNat
          let na := r.next_action.getD ""
          if na = "" then
            { allResults := acc2, actionHistory := hist, searchCount := k + 1, exchanges := ex + 1,
              lastResult := some r, stopReason := StopReason.modelDone, pyErr := none }
          else
            loopGo act task fields maxResults fuel (k + 1) (ex + 1) acc2 (hist ++ [na])
              (renderTemplate task fields maxResults na (historyText (hist ++ [na]))) (some r)
      | none =>
        let na := r.next_action.getD ""
        if na = "" then
          { allResults := acc, actionHistory := hist, searchCount := k + 1, exchanges := ex + 1,
            lastResult := some r, stopReason := StopReason.modelDone, pyErr := none }
        else
          loopGo act task fields maxResults fuel (k + 1) (ex + 1) acc (hist ++ [na])
            (renderTemplate task fields maxResults na (historyText (hist ++ [na]))) (some r)

/-- Run the orchestration loop from its initial state: empty accumulator and
history, `search_count = 0`, initial prompt rendered with
`NEXT_TASK=""`, `ACTION_HISTORY="None"`. -/
def processTaskTrace (act : Nat → String → Except String PyVal) (task : String)
    (fields : List String) (maxSearches maxResults : Int) : LoopTrace :=
  loopGo act task fields maxResults maxSearches.toNat 0 0 [] []
    (renderTemplate task fields maxResults "" "None") none

/-- The `\nSearch limit reached: True` note of the final `comments` string
(`agent.py` line 176; the interpolated boolean is `True` whenever the branch
is taken). -/
def limitNote : String := "\nSearch limit reached: True"

/-- The exception raised by the final `return` of `process_task` when the
loop body never executed and `result` was never assigned. -/
def unboundLocalMsg : String :=
  "UnboundLocalError: local variable result referenced before assignment"

/-- The `return` statement of `process_task` (lines 173-178): propagates a
pending loop exception, raises `UnboundLocalError` when `result` is unbound,
and otherwise appends the limit note exactly when
`search_count >= max_searches`. -/
def finalizeTask (tr : LoopTrace) (maxSearches : Int) : Except String TaskOutput :=
  match tr.pyErr with
  | some e => Except.error e
  | none =>
    match tr.lastResult with
    | none => Except.error unboundLocalMsg
    | some r =>
      Except.ok { results := tr.allResults,
                  comments := r.comments.getD "" ++
                    (if maxSearches ≤ (tr.searchCount : Int) then limitNote else "") }

/-- `process_task` with the per-call outcome of `process_single_action`
abstracted as `act` (every sequence of model replies is one such `act`). -/
def process_task_loop (act : Nat → String → Except String PyVal) (task : String)
    (fields : List String) (maxSearches maxResults : Int) : Except String TaskOutput :=
  finalizeTask (processTaskTrace act task fields maxSearches maxResults) maxSearches

/-- `process_task(task, max_searches, max_results)` end to end: infers the
field schema, then runs the orchestration loop with
`process_single_action` as the per-iteration exchange. -/
def process_task (kp : Bool) (create : String → Except String (List Block))
    (svc : List Msg → Except String Resp)
    (se : String → Except String (List String))
    (fe : String → Except String (Option String))
    (jl : String → Except String PyVal) (task : String)
    (maxSearches maxResults : Int) : Except String TaskOutput :=
  process_task_loop (fun _k msg => process_single_action kp svc se fe jl msg) task
    (infer_fields_from_task kp create jl task) maxSearches maxResults

/-! ## Loop invariants -/

/-- The accumulator never grows past the result budget: each iteration either
stops when remaining capacity is exhausted or appends at most the remaining
capacity. -/
theorem loopGo_length_le (act : Nat → String → Except String PyVal) (task : String)
    (fields : List String) (maxResults : Int) :
    ∀ (fuel k ex : Nat) (acc : List Item) (hist : List String) (msg : String)
      (last : Option ActionResult),
      (acc.length : Int) ≤ maxResults →
      ((loopGo act task fields maxResults fuel k ex acc hist msg last).allResults.length : Int)
        ≤ maxResults := by
  intro fuel
  induction fuel with
  | zero =>
    intro k ex acc hist msg last h
    simpa [loopGo] using h
  | succ n ih =>
    intro k ex acc hist msg last h
    simp only [loopGo]
    split
    · simpa using h
    · simpa using h
    · simpa using h
    · rename_i r heq
      split
      · rename_i new hres
        split
        · simpa using h
        · rename_i hrc
          have hlen : (((acc ++ new.take (maxResults - (acc.length : Int)).toNat).length : Nat) : Int)
              ≤ maxResults := by
            simp only [List.length_append, List.length_take]
            push_cast
            omega
          split
          · simpa using hlen
          · exact ih _ _ _ _ _ _ hlen
      · split
        · simpa using h
        · exact ih _ _ _ _ _ _ h

/-- The number of issued exchanges and the final `search_count` are bounded
by their starting values plus the remaining fuel. -/
theorem loopGo_counts_le (act : Nat → String → Except String PyVal) (task : String)
    (fields : List String) (maxResults : Int) :
    ∀ (fuel k ex : Nat) (acc : List Item) (hist : List String) (msg : String)
      (last : Option ActionResult),
      (loopGo act task fields maxResults fuel k ex acc hist msg last).exchanges ≤ ex + fuel ∧
      (loopGo act task fields maxResults fuel k ex acc hist msg last).searchCount ≤ k + fuel := by
  intro fuel
  induction fuel with
  | zero =>
    intro k ex acc hist msg last
    simp [loopGo]
  | succ n ih =>
    intro k ex acc hist msg last
    simp only [loopGo]
    split
    · constructor <;> simp
    · constructor <;> simp
    · constructor <;> simp
    · split
      · split
        · constructor <;> simp
        · split
          · constructor <;> simp
          · exact ⟨le_trans (ih _ _ _ _ _ _).1 (by omega),
              le_trans (ih _ _ _ _ _ _).2 (by omega)⟩
      · split
        · constructor <;> simp
        · exact ⟨le_trans (ih _ _ _ _ _ _).1 (by omega),
            le_trans (ih _ _ _ _ _ _).2 (by omega)⟩

/-- If the loop stopped because the search budget was exhausted, the final
`search_count` equals the starting count plus all of the fuel: every allowed
iteration was actually used. -/
theorem loopGo_searchBudget_count (act : Nat → String → Except String PyVal) (task : String)
    (fields : List String) (maxResults : Int) :
    ∀ (fuel k ex : Nat) (acc : List Item) (hist : List String) (msg : String)
      (last : Option ActionResult),
      (loopGo act task fields maxResults fuel k ex acc hist msg last).stopReason =
        StopReason.searchBudget →
      (loopGo act task fields maxResults fuel k ex acc hist msg last).searchCount = k + fuel := by
  intro fuel
  induction fuel with
  | zero =>
    intro k ex acc hist msg last _
    simp [loopGo]
  | succ n ih =>
    intro k ex acc hist msg last
    simp only [loopGo]
    split
    · intro h; simp at h
    · intro h; simp at h
    · intro h; simp at h
    · split
      · split
        · intro h; simp at h
        · split
          · intro h; simp at h
          · intro h
            have := ih _ _ _ _ _ _ h
            omega
      · split
        · intro h; simp at h
        · intro h
          have := ih _ _ _ _ _ _ h
          omega

/-! ## Driver lemmas -/

/-- The driver contacts the service at most `fuel` times: each level performs
at most one `create` call before recursing with one unit of fuel less. -/
theorem paGo_calls_le (kp : Bool) (svc : List Msg → Except String Resp)
    (se : String → Except String (List String))
    (fe : String → Except String (Option String)) :
    ∀ (fuel : Nat) (msgs : List Msg), (paGo kp svc se fe fuel msgs).calls ≤ fuel := by
  intro fuel
  induction fuel with
  | zero => intro msgs; simp [paGo]
  | succ n ih =>
    intro msgs
    simp only [paGo]
    split
    · simp
    · split
      · simp
      · split
        · split
          · simp
          · split <;> simpa using Nat.succ_le_succ (ih _)
        · simp

/-- With the API key present every level of the driver catches its own
failures, so the driver never lets an exception escape. -/
theorem paGo_ok_of_key (svc : List Msg → Except String Resp)
    (se : String → Except String (List String))
    (fe : String → Except String (Option String)) :
    ∀ (fuel : Nat) (msgs : List Msg), ∃ r, (paGo true svc se fe fuel msgs).res = Except.ok r := by
  intro fuel
  induction fuel with
  | zero => intro msgs; exact ⟨maxCallsResp, rfl⟩
  | succ n ih =>
    intro msgs
    simp only [paGo]
    split
    · simp_all
    · split
      · exact ⟨_, rfl⟩
      · split
        · split
          · exact ⟨_, rfl⟩
          · split
            · exact ⟨_, rfl⟩
            · exact ⟨_, rfl⟩
        · exact ⟨_, rfl⟩

/-- If the API key is missing and at least one call is allowed, the client
constructor raises before the `try` and the exception escapes the driver. -/
theorem paGo_error_of_no_key (svc : List Msg → Except String Resp)
    (se : String → Except String (List String))
    (fe : String → Except String (Option String))
    (fuel : Nat) (msgs : List Msg) :
    paGo false svc se fe (fuel + 1) msgs = { res := Except.error keyMissingMsg, calls := 0 } := by
  simp [paGo]

/-- With the key present, `process_single_action` never raises, and under a
`json.loads` that only ever yields JSON objects it always returns a dict. -/
theorem process_single_action_dict (svc : List Msg → Except String Resp)
    (se : String → Except String (List String))
    (fe : String → Except String (Option String))
    (jl : String → Except String PyVal)
    (hjl : ∀ s v, jl s = Except.ok v → ∃ r, v = PyVal.dict r) (m : String) :
    ∃ r, process_single_action true svc se fe jl m = Except.ok (PyVal.dict r) := by
  simp only [process_single_action, process_anthropic_response]
  obtain ⟨resp, hresp⟩ := paGo_ok_of_key svc se fe ((5 : Int).toNat)
    [{ role := "user", content := MsgContent.text m }]
  rw [hresp]
  cases hft : firstText resp.content with
  | none => exact ⟨{}, by simp [hft]⟩
  | some t =>
    cases hjlt : jl t with
    | error e => exact ⟨{}, by simp [hft, hjlt]⟩
    | ok v =>
      obtain ⟨r, hr⟩ := hjl t v hjlt
      exact ⟨r, by simp [hft, hjlt, hr]⟩

/-- If the key is missing, the driver exception propagates through
`process_single_action` (whose driver call sits outside its `try`). -/
theorem process_single_action_no_key (svc : List Msg → Except String Resp)
    (se : String → Except String (List String))
    (fe : String → Except String (Option String))
    (jl : String → Except String PyVal) (m : String) :
    process_single_action false svc se fe jl m = Except.error keyMissingMsg := rfl

/-- If every exchange outcome is a JSON object, the orchestration loop never
raises, and as soon as one iteration ran (or `result` was already bound),
`result` is bound at the end. -/
theorem loopGo_good (act : Nat → String → Except String PyVal)
    (hact : ∀ k m, ∃ r, act k m = Except.ok (PyVal.dict r)) (task : String)
    (fields : List String) (maxResults : Int) :
    ∀ (fuel k ex : Nat) (acc : List Item) (hist : List String) (msg : String)
      (last : Option ActionResult),
      (loopGo act task fields maxResults fuel k ex acc hist msg last).pyErr = none ∧
      ((1 ≤ fuel ∨ last.isSome) →
        (loopGo act task fields maxResults fuel k ex acc hist msg last).lastResult.isSome) := by
  intro fuel
  induction fuel with
  | zero =>
    intro k ex acc hist msg last
    refine ⟨rfl, ?_⟩
    rintro (h | h)
    · omega
    · simpa [loopGo] using h
  | succ n ih =>
    intro k ex acc hist msg last
    obtain ⟨r, hr⟩ := hact k msg
    simp only [loopGo, hr]
    split
    · split
      · exact ⟨rfl, fun _ => rfl⟩
      · split
        · exact ⟨rfl, fun _ => rfl⟩
        · exact ⟨(ih _ _ _ _ _ _).1, fun _ => (ih _ _ _ _ _ _).2 (Or.inr rfl)⟩
    · split
      · exact ⟨rfl, fun _ => rfl⟩
      · exact ⟨(ih _ _ _ _ _ _).1, fun _ => (ih _ _ _ _ _ _).2 (Or.inr rfl)⟩

/-! ## Finalization helpers -/

/-- When no exception is pending and `result` is bound, `process_task`
returns the accumulated results and the last comments, with the limit note
appended exactly when `search_count >= max_searches`. -/
theorem finalizeTask_ok (tr : LoopTrace) (ms : Int) (r : ActionResult)
    (herr : tr.pyErr = none) (hlast : tr.lastResult = some r) :
    finalizeTask tr ms = Except.ok
      { results := tr.allResults,
        comments := r.comments.getD "" ++
          (if ms ≤ (tr.searchCount : Int) then limitNote else "") } := by
  simp [finalizeTask, herr, hlast]

/-- Exchange and iteration counters of a full run are bounded by the clamped
search budget. -/
theorem trace_counts_le (act : Nat → String → Except String PyVal) (task : String)
    (fields : List String) (ms mr : Int) :
    (processTaskTrace act task fields ms mr).exchanges ≤ ms.toNat ∧
    (processTaskTrace act task fields ms mr).searchCount ≤ ms.toNat := by
  simpa [processTaskTrace] using loopGo_counts_le act task fields mr ms.toNat 0 0 [] []
    (renderTemplate task fields mr "" "None") none

/-- If a full run stopped on the search budget, every allowed iteration was
used: the final `search_count` is exactly the clamped budget. -/
theorem trace_searchBudget_count (act : Nat → String → Except String PyVal) (task : String)
    (fields : List String) (ms mr : Int)
    (h : (processTaskTrace act task fields ms mr).stopReason = StopReason.searchBudget) :
    (processTaskTrace act task fields ms mr).searchCount = ms.toNat := by
  simpa [processTaskTrace] using loopGo_searchBudget_count act task fields mr ms.toNat 0 0 [] []
    (renderTemplate task fields mr "" "None") none (by simpa [processTaskTrace] using h)

/-- A full run whose exchanges all return JSON objects never raises, and its
`result` variable is bound as soon as one iteration is allowed. -/
theorem trace_good (act : Nat → String → Except String PyVal)
    (hact : ∀ k m, ∃ r, act k m = Except.ok (PyVal.dict r)) (task : String)
    (fields : List String) (ms mr : Int) :
    (processTaskTrace act task fields ms mr).pyErr = none ∧
    (1 ≤ ms → (processTaskTrace act task fields ms mr).lastResult.isSome) := by
  have h := loopGo_good act hact task fields mr ms.toNat 0 0 [] []
    (renderTemplate task fields mr "" "None") none
  exact ⟨h.1, fun hms => h.2 (Or.inl (by omega))⟩

/-- Result-budget bound lifted to the returned object, for any per-iteration
exchange behaviour. -/
theorem process_task_loop_length_le (act : Nat → String → Except String PyVal)
    (task : String) (fields : List String) (ms mr : Int) (hmr : 0 ≤ mr)
    (out : TaskOutput) (hout : process_task_loop act task fields ms mr = Except.ok out) :
    (out.results.length : Int) ≤ mr := by
  have h := loopGo_length_le act task fields mr ms.toNat 0 0 [] []
    (renderTemplate task fields mr "" "None") none (by simpa using hmr)
  simp only [process_task_loop, finalizeTask, processTaskTrace] at hout
  split at hout
  · simp at hout
  · split at hout
    · simp at hout
    · rename_i r heq
      simp only [Except.ok.injEq] at hout
      subst hout
      simpa [processTaskTrace] using h

/-! ## Concrete environments for witnesses and counterexamples -/

/-- A service whose every call raises (network down). -/
def svcDown : List Msg → Except String Resp := fun _ => Except.error "boom"

/-- A search executor that always succeeds with no hits. -/
def seIdle : String → Except String (List String) := fun _ => Except.ok []

/-- A page-fetch executor that always returns `None`. -/
def feIdle : String → Except String (Option String) := fun _ => Except.ok none

/-- A `json.loads` that always raises. -/
def jlFail : String → Except String PyVal := fun _ => Except.error "Expecting value"

/-- A schema-inference create call that always raises. -/
def createFail : String → Except String (List Block) := fun _ => Except.error "boom"

/-- An exchange outcome: the model immediately reports two items and stops. -/
def actDone : Nat → String → Except String PyVal :=
  fun _ _ => Except.ok (PyVal.dict
    { results := some [1, 2], comments := some "", next_action := some "" })

/-- An exchange outcome: no results key, empty comments, always asks to
continue. -/
def actNext : Nat → String → Except String PyVal :=
  fun _ _ => Except.ok (PyVal.dict
    { results := some [], comments := some "c", next_action := some "go" })

/-! ## C1 -/

/-- C1: for every task and every behaviour of the environment, the list of
results returned by `process_task` has length at most `max_results`
(a nonnegative result budget, per the data model): each iteration appends at
most the remaining capacity, so the accumulated results never exceed the
budget. -/
theorem c1_result_budget_invariant (kp : Bool)
    (create : String → Except String (List Block))
    (svc : List Msg → Except String Resp)
    (se : String → Except String (List String))
    (fe : String → Except String (Option String))
    (jl : String → Except String PyVal) (task : String) (ms mr : Int)
    (hmr : 0 ≤ mr) (out : TaskOutput)
    (hout : process_task kp create svc se fe jl task ms mr = Except.ok out) :
    (out.results.length : Int) ≤ mr :=
  process_task_loop_length_le _ task _ ms mr hmr out hout

/-- Witness for C1 at a concrete run that returns two items under budget 5. -/
theorem c1_result_budget_witness :
    ((TaskOutput.mk [1, 2] "").results.length : Int) ≤ 5 := by
  refine c1_result_budget_invariant true createFail svcDown seIdle feIdle
    (fun _ => Except.ok (PyVal.dict
      { results := some [1, 2], comments := some "", next_action := some "" }))
    "t" 2 5 (by decide) ⟨[1, 2], ""⟩ ?_
  rfl

/-! ## C5 -/

/-- C5: for every task and every sequence of exchange outcomes, the
orchestrator issues at most `max_searches` top-level Conversation Driver
exchanges (each loop iteration issues exactly one, counted by the ghost
`exchanges` field), and the iteration counter `search_count` never exceeds
the iteration budget. -/
theorem c5_iteration_budget_invariant (act : Nat → String → Except String PyVal)
    (task : String) (fields : List String) (ms mr : Int) (hms : 0 ≤ ms) :
    ((processTaskTrace act task fields ms mr).exchanges : Int) ≤ ms ∧
    ((processTaskTrace act task fields ms mr).searchCount : Int) ≤ ms := by
  have h := trace_counts_le act task fields ms mr
  constructor <;> [have h1 := h.1; have h1 := h.2] <;> omega

/-- Witness for C5: a concrete run with budget 2 issues one exchange. -/
theorem c5_iteration_budget_witness :
    ((processTaskTrace actDone "t" ["f"] 2 5).exchanges : Int) ≤ 2 ∧
    ((processTaskTrace actDone "t" ["f"] 2 5).searchCount : Int) ≤ 2 :=
  c5_iteration_budget_invariant actDone "t" ["f"] 2 5 (by decide)

/-! ## C10 -/

/-- C10: for a request body whose `max_searches` is `<= 0` (accepted by the
router's `QueryBody`, which does not validate bounds), the loop body never
executes, the finalization reads the never-assigned local `result`, and
`process_task` raises an unbound-local error instead of returning a
results object. -/
theorem c10_unbound_local_error (kp : Bool)
    (create : String → Except String (List Block))
    (svc : List Msg → Except String Resp)
    (se : String → Except String (List String))
    (fe : String → Except String (Option String))
    (jl : String → Except String PyVal) (b : QueryBody)
    (hms : b.max_searches ≤ 0) :
    process_task kp create svc se fe jl b.query b.max_searches b.max_results =
      Except.error unboundLocalMsg := by
  have h0 : b.max_searches.toNat = 0 := Int.toNat_of_nonpos hms
  simp [process_task, process_task_loop, processTaskTrace, h0, loopGo, finalizeTask]

/-- Witness for C10 at `max_searches = 0`. -/
theorem c10_unbound_local_witness :
    process_task true createFail svcDown seIdle feIdle jlFail "q" 0 5 =
      Except.error unboundLocalMsg :=
  c10_unbound_local_error true createFail svcDown seIdle feIdle jlFail ⟨"q", 0, 5⟩ (by decide)

/-! ## C7 -/

/-- An exchange outcome: the model returns no items and an empty next action
(signals done) on every call. -/
def actEmptyNext : Nat → String → Except String PyVal :=
  fun _ _ => Except.ok (PyVal.dict
    { results := some [], comments := some "c", next_action := some "" })

/-- Counterexample to C7: with a budget of 1, a run whose only iteration
stops because the model signalled done (empty `next_action`) still gets the
"limit reached" note, because the note is keyed on `search_count >=
max_searches`, not on the stop reason. -/
theorem c7_limit_note_cex :
    (processTaskTrace actEmptyNext "t" ["f"] 1 10).stopReason = StopReason.modelDone ∧
    process_task_loop actEmptyNext "t" ["f"] 1 10 =
      Except.ok { results := [], comments := "c" ++ limitNote } := ⟨rfl, rfl⟩

/-- C7 as amended: the note is appended iff the number of performed
iterations reached `max_searches`; in particular it is always appended when
the run stopped on the iteration budget, and never appended when the run
stopped with fewer than `max_searches` iterations performed.  (It can also
appear when the final allowed iteration stops for another reason, as the
counterexample shows.) -/
theorem c7_limit_note_amended (act : Nat → String → Except String PyVal) (task : String)
    (fields : List String) (ms mr : Int) (r : ActionResult)
    (herr : (processTaskTrace act task fields ms mr).pyErr = none)
    (hlast : (processTaskTrace act task fields ms mr).lastResult = some r) :
    ((processTaskTrace act task fields ms mr).stopReason = StopReason.searchBudget →
      process_task_loop act task fields ms mr = Except.ok
        { results := (processTaskTrace act task fields ms mr).allResults,
          comments := r.comments.getD "" ++ limitNote }) ∧
    (((processTaskTrace act task fields ms mr).searchCount : Int) < ms →
      process_task_loop act task fields ms mr = Except.ok
        { results := (processTaskTrace act task fields ms mr).allResults,
          comments := r.comments.getD "" }) := by
  constructor
  · intro hstop
    have hc := trace_searchBudget_count act task fields ms mr hstop
    have hle : ms ≤ ((processTaskTrace act task fields ms mr).searchCount : Int) := by
      rw [hc]; exact Int.self_le_toNat ms
    simp only [process_task_loop]
    rw [finalizeTask_ok _ _ r herr hlast, if_pos hle]
  · intro hlt
    have hnle : ¬ ms ≤ ((processTaskTrace act task fields ms mr).searchCount : Int) := by omega
    simp only [process_task_loop]
    rw [finalizeTask_ok _ _ r herr hlast, if_neg hnle]
    simp

/-- Witness for C7: a run that exhausts its budget of one iteration carries
the note. -/
theorem c7_limit_note_witness :
    process_task_loop actNext "t" ["f"] 1 10 =
      Except.ok { results := [], comments := "c" ++ limitNote } :=
  (c7_limit_note_amended actNext "t" ["f"] 1 10
    { results := some [], comments := some "c", next_action := some "go" } rfl rfl).1 rfl

/-! ## C2 -/

/-- An exchange outcome: the model yields five items and always proposes a
next action. -/
def actFive : Nat → String → Except String PyVal :=
  fun _ _ => Except.ok (PyVal.dict
    { results := some [10, 11, 12, 13, 14], comments := some "", next_action := some "more" })

/-- Counterexample to C2: with `max_results = 3` and an iteration yielding 5
results plus a nonempty next action, the first 3 items are kept, but the run
does not stop immediately: a second Conversation Driver exchange is issued
(the capacity check only runs at the next iteration's accumulate step), so
the exchange count is 2, not 1. -/
theorem c2_truncation_cex :
    (processTaskTrace actFive "t" ["f"] 5 3).allResults = [10, 11, 12] ∧
    (processTaskTrace actFive "t" ["f"] 5 3).exchanges = 2 ∧
    ¬ (processTaskTrace actFive "t" ["f"] 5 3).exchanges = 1 := ⟨rfl, rfl, by decide⟩

/-- C2 as amended: with `max_results = 3`, if the first iteration yields 5
results (in order) and a nonempty next action, exactly the first 3 are kept
in their original order and no later item is ever appended, but the run only
stops at the following iteration: one further exchange is issued (if its
reply carries a results key) and the loop then halts with
results-budget-exhausted after 2 iterations. -/
theorem c2_truncation_amended (act : Nat → String → Except String PyVal)
    (task : String) (fields : List String) (l : List Item) (c0 na : String)
    (r1 : ActionResult) (new1 : List Item)
    (hlen : l.length = 5) (hna : ¬ na = "")
    (h0 : ∀ m, act 0 m = Except.ok (PyVal.dict
      { results := some l, comments := some c0, next_action := some na }))
    (h1 : ∀ m, act 1 m = Except.ok (PyVal.dict r1))
    (hr1 : r1.results = some new1) :
    (processTaskTrace act task fields 5 3).allResults = l.take 3 ∧
    (processTaskTrace act task fields 5 3).stopReason = StopReason.resultsBudget ∧
    (processTaskTrace act task fields 5 3).searchCount = 2 := by
  have htk : ((l.take 3).length : Int) = 3 := by
    simp [List.length_take, hlen]
  simp only [processTaskTrace]
  rw [show (5 : Int).toNat = 4 + 1 from rfl]
  unfold loopGo
  rw [h0 _]
  dsimp only
  rw [if_neg (by norm_num : ¬ ((3 : Int) - ((([] : List Item).length : Nat) : Int) ≤ 0))]
  dsimp only [Option.getD]
  rw [if_neg hna]
  rw [show ((3 : Int) - ((([] : List Item).length : Nat) : Int)).toNat = 3 by decide]
  rw [show (4 : Nat) = 3 + 1 from rfl]
  unfold loopGo
  rw [h1 _]
  dsimp only
  rw [hr1]
  dsimp only
  rw [if_pos (show (3 : Int) - (((([] : List Item) ++ l.take 3).length : Nat) : Int) ≤ 0 by
    rw [List.nil_append, htk]; omega)]
  exact ⟨by simp, rfl, rfl⟩

/-- Witness for the amended C2 at the concrete five-item reply. -/
theorem c2_truncation_witness :
    (processTaskTrace actFive "t" ["f"] 5 3).allResults = [10, 11, 12, 13, 14].take 3 ∧
    (processTaskTrace actFive "t" ["f"] 5 3).stopReason = StopReason.resultsBudget ∧
    (processTaskTrace actFive "t" ["f"] 5 3).searchCount = 2 :=
  c2_truncation_amended actFive "t" ["f"] [10, 11, 12, 13, 14] "" "more"
    { results := some [10, 11, 12, 13, 14], comments := some "", next_action := some "more" }
    [10, 11, 12, 13, 14] (by decide) (by decide) (fun _ => rfl) (fun _ => rfl) rfl

/-! ## C3 -/

/-- Counterexample to C3: with the API key missing the client constructor
raises outside every `try` on the path, so `process_task` raises instead of
returning a results object, although the claim includes "the client being
unconstructible" among the behaviours under which it never raises. -/
theorem c3_never_raises_cex :
    process_task false createFail svcDown seIdle feIdle jlFail "find papers" 2 5 =
      Except.error keyMissingMsg := rfl

/-- C3 as amended: provided the API key is present, at least one iteration is
allowed, and every reply that parses parses to a JSON object, `process_task`
returns a results object for every service behaviour; and when the service
raises on every call, the returned object has empty results and comments
containing "Error".  (With the key missing, `process_task` raises, as the
counterexample shows; a reply parsing to a non-object also raises inside the
loop body.) -/
theorem c3_error_reporting_amended (create : String → Except String (List Block))
    (svc : List Msg → Except String Resp)
    (se : String → Except String (List String))
    (fe : String → Except String (Option String))
    (jl : String → Except String PyVal) (task : String) (ms mr : Int)
    (hms : 1 ≤ ms)
    (hjl : ∀ s v, jl s = Except.ok v → ∃ r, v = PyVal.dict r) :
    (∃ out, process_task true create svc se fe jl task ms mr = Except.ok out) ∧
    (∀ e, (∀ m, svc m = Except.error e) →
      jl (fallbackJson e) = Except.ok (PyVal.dict
        { results := some [], comments := some ("Error: " ++ e), next_action := some "" }) →
      ∃ out, process_task true create svc se fe jl task ms mr = Except.ok out ∧
        out.results = [] ∧ ∃ s, out.comments = "Error" ++ s) := by
  have hact : ∀ (k : Nat) (m : String),
      ∃ r, (fun (_k : Nat) (msg : String) => process_single_action true svc se fe jl msg) k m =
        Except.ok (PyVal.dict r) :=
    fun _ m => process_single_action_dict svc se fe jl hjl m
  constructor
  · have hg := trace_good _ hact task (infer_fields_from_task true create jl task) ms mr
    obtain ⟨r, hr⟩ := Option.isSome_iff_exists.mp (hg.2 hms)
    exact ⟨_, by
      simp only [process_task, process_task_loop]
      rw [finalizeTask_ok _ _ r hg.1 hr]⟩
  · intro e hsvc hjlfb
    have hact0 : ∀ m, process_single_action true svc se fe jl m = Except.ok (PyVal.dict
        { results := some [], comments := some ("Error: " ++ e), next_action := some "" }) := by
      intro m
      simp only [process_single_action, process_anthropic_response]
      rw [show (5 : Int).toNat = 4 + 1 from rfl]
      unfold paGo
      rw [if_neg (by simp), hsvc _]
      dsimp only
      rw [show firstText (errorFallbackResp e).content = some (fallbackJson e) from rfl]
      dsimp only
      rw [hjlfb]
    obtain ⟨n, hn⟩ : ∃ n, ms.toNat = n + 1 := ⟨ms.toNat - 1, by omega⟩
    have htr : ∃ reason, processTaskTrace
        (fun (_k : Nat) (msg : String) => process_single_action true svc se fe jl msg)
        task (infer_fields_from_task true create jl task) ms mr =
        { allResults := [], actionHistory := [], searchCount := 1, exchanges := 1,
          lastResult := some { results := some [], comments := some ("Error: " ++ e), next_action := some "" },
          stopReason := reason, pyErr := none } := by
      simp only [processTaskTrace]
      rw [hn]
      unfold loopGo
      rw [hact0 _]
      dsimp only
      by_cases hmr0 : mr - ((([] : List Item).length : Nat) : Int) ≤ 0
      · rw [if_pos hmr0]
        exact ⟨StopReason.resultsBudget, rfl⟩
      · rw [if_neg hmr0]
        dsimp only [Option.getD]
        rw [if_pos rfl]
        exact ⟨StopReason.modelDone, by simp⟩
    obtain ⟨reason, htr⟩ := htr
    have hassoc : ∀ X : String, ("Error: " ++ e) ++ X = "Error" ++ (": " ++ (e ++ X)) := by
      intro X
      rw [show "Error: " = "Error" ++ ": " from rfl]
      rw [String.append_assoc, String.append_assoc]
    have hout : process_task true create svc se fe jl task ms mr = Except.ok
        { results := [],
          comments := ("Error: " ++ e) ++ (if ms ≤ ((1 : Nat) : Int) then limitNote else "") } := by
      simp only [process_task, process_task_loop]
      rw [htr]
      rfl
    exact ⟨_, hout, rfl, ⟨_, hassoc _⟩⟩

/-- A `json.loads` that always yields the parsed error-fallback object. -/
def jlErrObj : String → Except String PyVal :=
  fun _ => Except.ok (PyVal.dict
    { results := some [], comments := some "Error: boom", next_action := some "" })

/-- Witness for the amended C3: service down on every call, key present. -/
theorem c3_error_reporting_witness :
    ∃ out, process_task true createFail svcDown seIdle feIdle jlErrObj "t" 2 5 =
      Except.ok out ∧ out.results = [] ∧ ∃ s, out.comments = "Error" ++ s :=
  (c3_error_reporting_amended createFail svcDown seIdle feIdle jlErrObj "t" 2 5 (by decide)
    (fun s v hv => ⟨_, by
      simp only [jlErrObj, Except.ok.injEq] at hv
      exact hv.symm⟩)).2 "boom" (fun _ => rfl)
    (by rw [show ("Error: " ++ "boom" : String) = "Error: boom" from by decide]; rfl)

/-! ## C4 -/

/-- A schema-inference reply whose only text block is the empty JSON array. -/
def createEmptyList : String → Except String (List Block) :=
  fun _ => Except.ok [Block.text "[]"]

/-- A `json.loads` that parses `[]` and raises on everything else. -/
def jlEmptyList : String → Except String PyVal :=
  fun s => if s = "[]" then Except.ok (PyVal.strList []) else Except.error "Expecting value"

/-- Counterexample to C4: a model reply of `[]` is a valid JSON array of
strings, passes the validation, and yields an empty schema, so the returned
schema is not always non-empty. -/
theorem c4_schema_nonempty_cex :
    infer_fields_from_task true createEmptyList jlEmptyList "find items" = [] := rfl

/-- C4 as amended: whenever the service call fails (missing key or a raising
create call), the reply is empty or missing, parsing fails, or the parsed
value is not a list of strings, `infer_fields_from_task` returns exactly
`["name", "description"]`; the schema can nevertheless be empty when the
model returns a valid empty JSON array, so non-emptiness does not hold for
every task. -/
theorem c4_schema_fallback_amended (kp : Bool) (create : String → Except String (List Block))
    (jl : String → Except String PyVal) (task : String)
    (h : kp = false ∨
         ask_claude kp create (inferPrompt task) = Except.ok none ∨
         ask_claude kp create (inferPrompt task) = Except.ok (some "") ∨
         (∃ t, ask_claude kp create (inferPrompt task) = Except.ok (some t) ∧
           ((∃ e, jl t = Except.error e) ∨
            (∃ r, jl t = Except.ok (PyVal.dict r)) ∨
            jl t = Except.ok PyVal.other))) :
    infer_fields_from_task kp create jl task = ["name", "description"] := by
  rcases h with h | h | h | ⟨t, ht, h⟩
  · subst h
    simp [infer_fields_from_task, ask_claude]
  · simp [infer_fields_from_task, h]
  · simp [infer_fields_from_task, h]
  · by_cases ht0 : t = ""
    · simp [infer_fields_from_task, ht, ht0]
    · rcases h with ⟨e, he⟩ | ⟨r, hr⟩ | h
      · simp [infer_fields_from_task, ht, ht0, he]
      · simp [infer_fields_from_task, ht, ht0, hr]
      · simp [infer_fields_from_task, ht, ht0, h]

/-- Witness for the amended C4: missing key degrades to the fallback. -/
theorem c4_schema_fallback_witness :
    infer_fields_from_task false createFail jlFail "t" = ["name", "description"] :=
  c4_schema_fallback_amended false createFail jlFail "t" (Or.inl rfl)

/-! ## C6 -/

/-- Counterexample to C6: the synthetic terminal text carries a trailing
period, `"Max API calls reached."`, not the claimed `"Max API calls
reached"`. -/
theorem c6_depth_budget_cex :
    (process_anthropic_response true svcDown seIdle feIdle [] 0).res =
      Except.ok maxCallsResp ∧
    maxCallsResp.content = [Block.text "Max API calls reached."] ∧
    "Max API calls reached." ≠ "Max API calls reached" :=
  ⟨rfl, rfl, by decide⟩

/-- C6 as amended: with `max_calls <= 0` the driver returns, without any
service contact (zero calls), the synthetic terminal response whose text is
exactly `"Max API calls reached."` and whose stop reason is `end_turn`;
and in every case the number of service round trips is bounded by the
clamped depth budget, independently of the orchestrator's iteration
budget. -/
theorem c6_depth_budget_amended (kp : Bool) (svc : List Msg → Except String Resp)
    (se : String → Except String (List String))
    (fe : String → Except String (Option String)) (msgs : List Msg) (mc : Int) :
    (mc ≤ 0 → process_anthropic_response kp svc se fe msgs mc =
      { res := Except.ok maxCallsResp, calls := 0 }) ∧
    (process_anthropic_response kp svc se fe msgs mc).calls ≤ mc.toNat := by
  constructor
  · intro h
    have h0 : mc.toNat = 0 := Int.toNat_of_nonpos h
    simp only [process_anthropic_response, h0]
    rfl
  · exact paGo_calls_le kp svc se fe mc.toNat msgs

/-- Witness for the amended C6 at depth 0. -/
theorem c6_depth_budget_witness :
    process_anthropic_response true svcDown seIdle feIdle [] 0 =
      { res := Except.ok maxCallsResp, calls := 0 } :=
  (c6_depth_budget_amended true svcDown seIdle feIdle [] 0).1 (by decide)

/-! ## C8 -/

/-- C8: a tool-use block whose name is neither `search_web` nor `fetch_page`
contributes no tool result and consults no executor (the dispatch is
independent of anything the executors would do); and when the dispatch loop
produces no outputs at all for a tool-use response, the driver returns the
response as-is after its single service call, without recursing. -/
theorem c8_unknown_tool_skipped (se : String → Except String (List String))
    (fe : String → Except String (Option String)) (bid name : String)
    (input : ToolInput) (rest : List Block)
    (h1 : ¬ name = "search_web") (h2 : ¬ name = "fetch_page") :
    toolOutputs se fe (Block.toolUse bid name input :: rest) = toolOutputs se fe rest ∧
    (∀ (svc : List Msg → Except String Resp) (mc : Int) (msgs : List Msg) (resp : Resp),
      1 ≤ mc → svc msgs = Except.ok resp → resp.stop_reason = "tool_use" →
      toolOutputs se fe resp.content = [] →
      process_anthropic_response true svc se fe msgs mc =
        { res := Except.ok resp, calls := 1 }) := by
  constructor
  · simp [toolOutputs, h1, h2]
  · intro svc mc msgs resp hmc hsvc hstop houts
    obtain ⟨n, hn⟩ : ∃ n, mc.toNat = n + 1 := ⟨mc.toNat - 1, by omega⟩
    simp only [process_anthropic_response]
    rw [hn]
    unfold paGo
    rw [if_neg (by simp), hsvc]
    dsimp only
    rw [hstop, if_pos rfl, houts, if_pos rfl]

/-- Response requesting an unknown tool, and its service. -/
def respUnknown : Resp :=
  { stop_reason := "tool_use", content := [Block.toolUse "id2" "mystery_tool" {}] }

/-- A service that always requests the unknown tool. -/
def svcUnknown : List Msg → Except String Resp := fun _ => Except.ok respUnknown

/-- Witness for C8 at a concrete unknown-tool exchange. -/
theorem c8_unknown_tool_witness :
    toolOutputs seIdle feIdle [Block.toolUse "id2" "mystery_tool" {}] =
      toolOutputs seIdle feIdle [] ∧
    process_anthropic_response true svcUnknown seIdle feIdle [] 5 =
      { res := Except.ok respUnknown, calls := 1 } := by
  have h := c8_unknown_tool_skipped seIdle feIdle "id2" "mystery_tool" {} []
    (by decide) (by decide)
  exact ⟨h.1, h.2 svcUnknown 5 [] respUnknown (by norm_num) rfl rfl rfl⟩

/-! ## C9 -/

/-- One driver level on a tool-use response with a nonempty dispatch output:
the result is that of the recursive call on the conversation extended by the
assistant turn and the synthetic user turn carrying all tool results. -/
theorem paGo_res_succ_tool (svc : List Msg → Except String Resp)
    (se : String → Except String (List String))
    (fe : String → Except String (Option String)) (n : Nat) (msgs : List Msg)
    (resp : Resp) (hsvc : svc msgs = Except.ok resp)
    (hstop : resp.stop_reason = "tool_use")
    (houts : ¬ toolOutputs se fe resp.content = []) :
    (paGo true svc se fe (n + 1) msgs).res =
      (paGo true svc se fe n
        (msgs ++ [{ role := "assistant", content := MsgContent.blocks resp.content },
                  { role := "user",
                    content := MsgContent.toolResults (toolOutputs se fe resp.content) }])).res := by
  conv_lhs => rw [paGo.eq_def]
  dsimp only
  rw [if_neg (by simp), hsvc]
  dsimp only
  rw [hstop, if_pos rfl, if_neg houts]
  obtain ⟨r2, hr2⟩ := paGo_ok_of_key svc se fe n
    (msgs ++ [{ role := "assistant", content := MsgContent.blocks resp.content },
              { role := "user",
                content := MsgContent.toolResults (toolOutputs se fe resp.content) }])
  rw [hr2]

/-- C9: a recognized tool invocation whose executor raises still produces a
tool result echoing the invocation id with an error-string content, and the
exchange continues: the driver recurses on the conversation extended with
that tool result, instead of aborting. -/
theorem c9_tool_error_continues (se : String → Except String (List String))
    (fe : String → Except String (Option String)) (bid name : String)
    (input : ToolInput) (err : String) (rest : List Block)
    (hexec : (name = "search_web" ∧ se (input.query.getD "") = Except.error err) ∨
             (name = "fetch_page" ∧ fe (input.url.getD "") = Except.error err)) :
    toolOutputs se fe (Block.toolUse bid name input :: rest) =
      { tool_use_id := bid, content := "Tool error: " ++ err } :: toolOutputs se fe rest ∧
    (∀ (svc : List Msg → Except String Resp) (mc : Int) (msgs : List Msg) (resp : Resp),
      1 ≤ mc → svc msgs = Except.ok resp → resp.stop_reason = "tool_use" →
      resp.content = Block.toolUse bid name input :: rest →
      (process_anthropic_response true svc se fe msgs mc).res =
        (process_anthropic_response true svc se fe
          (msgs ++ [{ role := "assistant", content := MsgContent.blocks resp.content },
                    { role := "user",
                      content := MsgContent.toolResults (toolOutputs se fe resp.content) }])
          (mc - 1)).res) := by
  have hdisp : toolOutputs se fe (Block.toolUse bid name input :: rest) =
      { tool_use_id := bid, content := "Tool error: " ++ err } :: toolOutputs se fe rest := by
    rcases hexec with ⟨hn, hse⟩ | ⟨hn, hfe⟩
    · subst hn
      simp [toolOutputs, hse]
    · subst hn
      simp [toolOutputs, hfe]
  refine ⟨hdisp, ?_⟩
  intro svc mc msgs resp hmc hsvc hstop hcontent
  have hn : mc.toNat = (mc - 1).toNat + 1 := by omega
  simp only [process_anthropic_response]
  rw [hn]
  exact paGo_res_succ_tool svc se fe (mc - 1).toNat msgs resp hsvc hstop
    (by rw [hcontent, hdisp]; simp)

/-- A search executor that always raises. -/
def seDown : String → Except String (List String) := fun _ => Except.error "net down"

/-- Response requesting a `search_web` call, and its service. -/
def respTool : Resp :=
  { stop_reason := "tool_use", content := [Block.toolUse "id1" "search_web" {}] }

/-- A service that always requests the search tool. -/
def svcTool : List Msg → Except String Resp := fun _ => Except.ok respTool

/-- Witness for C9 at a concrete failing `search_web` invocation. -/
theorem c9_tool_error_witness :
    toolOutputs seDown feIdle [Block.toolUse "id1" "search_web" {}] =
      { tool_use_id := "id1", content := "Tool error: " ++ "net down" } ::
        toolOutputs seDown feIdle [] ∧
    (process_anthropic_response true svcTool seDown feIdle [] 5).res =
      (process_anthropic_response true svcTool seDown feIdle
        ([] ++ [{ role := "assistant", content := MsgContent.blocks respTool.content },
                { role := "user",
                  content := MsgContent.toolResults (toolOutputs seDown feIdle respTool.content) }])
        (5 - 1)).res := by
  have h := c9_tool_error_continues seDown feIdle "id1" "search_web" {} "net down" []
    (Or.inl ⟨rfl, rfl⟩)
  exact ⟨h.1, h.2 svcTool 5 [] respTool (by norm_num) rfl rfl rfl⟩
